import Mathlib

/-!
A shallow embedding of the core of the `vision-service` surveillance system
(C++ sources `camera_manager.{h,cpp}`, `frame_processor.{h,cpp}`,
`vision_service.{h,cpp}`) and proofs about it.

Modelling conventions:
* C++ `int`/`int64_t` fields are `Int`; byte buffers (`std::vector<uint8_t>`)
  are `List Nat`; sizes are `Nat`.
* Wall-clock reads (`std::chrono::...::now()`) are passed in as explicit `now`
  parameters; sleeps are dropped (they do not change the modelled state).
* The filesystem probe `std::filesystem::exists(url)` is an oracle parameter
  `ex : String → Bool`.
* Calls that depend on the optional OpenCV backend are parameterised by a
  boolean (`backend_ok`, `spawn_ok`) carrying the outcome of the external call.
* `SetState` additionally records the entered state in a `trace` field, and the
  frame-callback invocation records the delivered frame in a `delivered` field:
  these are observation instrumentation, not extra behaviour.
-/

/-- `CameraType` from `camera_manager.h`. -/
inductive CameraType where
  | UNKNOWN
  | FILE_VIDEO
  | WEBCAM
  | RTSP_STREAM
  | HTTP_STREAM
  | TEST_PATTERN
deriving DecidableEq, Repr

/-- `CameraState` from `camera_manager.h`. -/
inductive CameraState where
  | UNINITIALIZED
  | INITIALIZING
  | READY
  | CAPTURING
  | ERROR
  | DISCONNECTED
  | RECONNECTING
deriving DecidableEq, Repr

/-- `struct Frame` from `frame_processor.h`: a byte buffer plus dimensions,
format tag and capture timestamp. -/
structure Frame where
  data : List Nat
  width : Int := 0
  height : Int := 0
  format : String := "unknown"
  timestamp : Nat := 0
deriving DecidableEq, Repr

/-- `struct CameraConfig` from `camera_manager.h`, with its default member
values. -/
structure CameraConfig where
  width : Int := 640
  height : Int := 480
  fps : Int := 15
  format : String := "bgr"
  auto_reconnect : Bool := true
  reconnect_delay_ms : Int := 5000
  max_reconnect_attempts : Int := 3
  frame_buffer_size : Int := 30
deriving DecidableEq, Repr

/-- `struct CameraStats` from `camera_manager.h` (the atomic counters and the
two time points; times are modelled as `Nat` ticks). -/
structure CameraStats where
  frames_captured : Int := 0
  frames_dropped : Int := 0
  bytes_received : Int := 0
  reconnect_count : Int := 0
  start_time : Nat := 0
  last_frame_time : Nat := 0
deriving DecidableEq, Repr

namespace CameraManagerConstants

/-- `SUPPORTED_VIDEO_FORMATS` from `camera_manager.h`. -/
def SUPPORTED_VIDEO_FORMATS : List String :=
  [".mp4", ".avi", ".mov", ".mkv", ".wmv", ".flv", ".webm"]

/-- `RTSP_PREFIXES` from `camera_manager.h`. -/
def RTSP_PREFIXES : List String := ["rtsp://", "rtmp://", "rtp://"]

/-- `HTTP_PREFIXES` from `camera_manager.h`. -/
def HTTP_PREFIXES : List String := ["http://", "https://"]

/-- `WEBCAM_PATTERNS` from `camera_manager.h`. -/
def WEBCAM_PATTERNS : List String := ["/dev/video", "/dev/v4l/by-id/"]

end CameraManagerConstants

/-- C++ `url.find(p) == 0` on `std::string`: `p` is a prefix of `url`
(byte-wise; the constants involved are ASCII, so `List Char` agrees). -/
def strHasPre (p url : String) : Bool := p.data.isPrefixOf url.data

/-- C++ `url.compare(url.size() - e.size(), e.size(), e) == 0` guarded by
`url.size() >= e.size()`: `e` is a suffix of `url`. -/
def strHasSuf (e url : String) : Bool := e.data.isSuffixOf url.data

namespace CameraManager

open CameraManagerConstants

/-- `CameraManager::DetectCameraType` (`camera_manager.cpp`).  `ex url` is the
oracle for the one external call, `std::filesystem::exists(url)`. -/
def DetectCameraType (ex : String → Bool) (url : String) : CameraType :=
  if url = "" then CameraType.UNKNOWN
  else if url = "test://pattern" || strHasPre "test://" url then CameraType.TEST_PATTERN
  else if RTSP_PREFIXES.any (fun p => strHasPre p url) then CameraType.RTSP_STREAM
  else if HTTP_PREFIXES.any (fun p => strHasPre p url) then CameraType.HTTP_STREAM
  else if WEBCAM_PATTERNS.any (fun p => strHasPre p url) then CameraType.WEBCAM
  else if SUPPORTED_VIDEO_FORMATS.any (fun e => strHasSuf e url) then CameraType.FILE_VIDEO
  else if ex url then CameraType.FILE_VIDEO
  else CameraType.UNKNOWN

/-- `CameraManager::IsValidCameraUrl` (`camera_manager.cpp`). -/
def IsValidCameraUrl (ex : String → Bool) (url : String) : Bool :=
  decide (DetectCameraType ex url ≠ CameraType.UNKNOWN)

end CameraManager

/-- The URL classification rules exactly as §4.1 of the specification words
them ("Classify in this order; first match wins").  Rule 7, "names an existing
regular file on disk", is the same external filesystem test abstracted by the
oracle `ex` (the implementation asks `std::filesystem::exists`). -/
def ClassifyUrlSpec (ex : String → Bool) (url : String) : CameraType :=
  if url = "" then CameraType.UNKNOWN
  else if url = "test://pattern" || strHasPre "test://" url then CameraType.TEST_PATTERN
  else if ["rtsp://", "rtmp://", "rtp://"].any (fun p => strHasPre p url) then
    CameraType.RTSP_STREAM
  else if ["http://", "https://"].any (fun p => strHasPre p url) then CameraType.HTTP_STREAM
  else if ["/dev/video", "/dev/v4l/by-id/"].any (fun p => strHasPre p url) then
    CameraType.WEBCAM
  else if [".mp4", ".avi", ".mov", ".mkv", ".wmv", ".flv", ".webm"].any
      (fun e => strHasSuf e url) then CameraType.FILE_VIDEO
  else if ex url then CameraType.FILE_VIDEO
  else CameraType.UNKNOWN

/-- C3: URL classification is decided by the first matching rule in the fixed
order of §4.1 (empty → UNKNOWN; `test://` → TEST_PATTERN; rtsp/rtmp/rtp →
RTSP_STREAM; http/https → HTTP_STREAM; `/dev/video`, `/dev/v4l/by-id/` →
WEBCAM; the seven video suffixes → FILE_VIDEO; an existing file → FILE_VIDEO;
otherwise UNKNOWN), and in particular the five concrete examples hold. -/
theorem DetectCameraType_first_match_order :
    (∀ (ex : String → Bool) (url : String),
      CameraManager.DetectCameraType ex url = ClassifyUrlSpec ex url) ∧
    CameraManager.DetectCameraType (fun _ => false) "rtsp://x/y" = CameraType.RTSP_STREAM ∧
    CameraManager.DetectCameraType (fun _ => false) "/dev/video2" = CameraType.WEBCAM ∧
    CameraManager.DetectCameraType (fun _ => false) "movie.mp4" = CameraType.FILE_VIDEO ∧
    CameraManager.DetectCameraType (fun _ => false) "" = CameraType.UNKNOWN ∧
    CameraManager.DetectCameraType (fun _ => false) "test://pattern" = CameraType.TEST_PATTERN :=
  ⟨fun _ _ => rfl, by decide, by decide, by decide, by decide, by decide⟩

/-- The mutable state of a `CameraManager` object (`camera_manager.h`).
`threads_spawned` counts `std::thread` constructions (`capture_thread_`
creations), `trace` records every state entered through `SetState`, and
`delivered` records the frames handed to the frame callback — pure
instrumentation of otherwise invisible events.  The frame-buffer queue and the
OpenCV handle are not modelled (no modelled operation reads them). -/
structure CameraManagerState where
  camera_url : String
  camera_type : CameraType
  config : CameraConfig := {}
  state : CameraState := CameraState.UNINITIALIZED
  stats : CameraStats := {}
  last_error : String := ""
  should_stop : Bool := false
  is_capturing : Bool := false
  reconnect_attempts : Int := 0
  threads_spawned : Nat := 0
  trace : List CameraState := []
  delivered : List Frame := []
deriving DecidableEq, Repr

namespace CameraManager

/-- The `CameraManager(camera_url)` constructor (`camera_manager.cpp`). -/
def mk (ex : String → Bool) (camera_url : String) : CameraManagerState :=
  { camera_url := camera_url
    camera_type := DetectCameraType ex camera_url }

/-- `CameraManager::SetState` (also appends to the instrumentation trace). -/
def SetState (m : CameraManagerState) (new_state : CameraState) : CameraManagerState :=
  { m with state := new_state, trace := m.trace ++ [new_state] }

/-- `CameraManager::SetError`: records the most recent error string. -/
def SetError (m : CameraManagerState) (error : String) : CameraManagerState :=
  { m with last_error := error }

/-- `std::numeric_limits<int>::max()`. -/
def INT_MAX : Int := 2147483647

/-- The backend dispatch inside `CameraManager::Initialize(config)`:
`InitializeTestPattern` always succeeds; the file/webcam/RTSP backends depend
on the OpenCV build and the environment, abstracted by `backend_ok`; the
`default` case (UNKNOWN, HTTP_STREAM) fails. -/
def InitializeBackend (backend_ok : Bool) (t : CameraType) : Bool :=
  match t with
  | CameraType.TEST_PATTERN => true
  | CameraType.FILE_VIDEO => backend_ok
  | CameraType.WEBCAM => backend_ok
  | CameraType.RTSP_STREAM => backend_ok
  | _ => false

/-- `CameraManager::Initialize(const CameraConfig&)` (`camera_manager.cpp`).
The overflow guard is C++ `config.width > INT_MAX / config.height`; the
division only decides the condition when `width, height, fps > 0` (otherwise
an earlier disjunct is already true), where C++ and Lean integer division
agree.  On a file/webcam/RTSP backend failure the backend's own
`SetError` message depends on the OpenCV build and is abstracted away;
the `default` case's "Unsupported camera type" is modelled. -/
def Initialize (backend_ok : Bool) (now : Nat) (m : CameraManagerState)
    (config : CameraConfig) : Bool × CameraManagerState :=
  if config.width ≤ 0 ∨ config.height ≤ 0 ∨ config.fps ≤ 0 ∨
      INT_MAX / config.height < config.width then
    (false, SetState (SetError m "Invalid configuration parameters") CameraState.ERROR)
  else if m.state ≠ CameraState.UNINITIALIZED then
    (false, SetError m "Already initialized")
  else
    let m1 := { SetState m CameraState.INITIALIZING with config := config }
    if InitializeBackend backend_ok m1.camera_type then
      let m2 := SetState m1 CameraState.READY
      (true, { m2 with stats := { m2.stats with start_time := now } })
    else
      let m2 :=
        if m1.camera_type = CameraType.UNKNOWN ∨ m1.camera_type = CameraType.HTTP_STREAM then
          SetError m1 "Unsupported camera type"
        else m1
      (false, SetState m2 CameraState.ERROR)

/-- `CameraManager::StartCapture` (`camera_manager.cpp`).  `spawn_ok` is the
outcome of the `std::thread` construction (the construction's exception text
is abstracted in the failure message). -/
def StartCapture (spawn_ok : Bool) (m : CameraManagerState) : Bool × CameraManagerState :=
  if m.state ≠ CameraState.READY then
    (false, SetError m "Camera not ready for capture")
  else if m.is_capturing then
    (true, m)
  else
    let m1 := { m with should_stop := false }
    if spawn_ok then
      (true, SetState
        { m1 with threads_spawned := m1.threads_spawned + 1, is_capturing := true }
        CameraState.CAPTURING)
    else
      (false, SetError
        (SetState { m1 with should_stop := true, is_capturing := false } CameraState.READY)
        "Failed to start capture thread: ")

/-- `CameraManager::ShouldAttemptReconnect` (`camera_manager.cpp`). -/
def ShouldAttemptReconnect (m : CameraManagerState) : Bool :=
  m.config.auto_reconnect && decide (m.reconnect_attempts < m.config.max_reconnect_attempts)

/-- `CameraManager::InitializeCapture` (`camera_manager.cpp`): the common
reinitialization run by the reconnect path; it resets the attempt counter and
always reports success. -/
def InitializeCapture (m : CameraManagerState) : CameraManagerState × Bool :=
  ({ m with reconnect_attempts := 0 }, true)

/-- `CameraManager::AttemptReconnect` (`camera_manager.cpp`), with the
self-recursion bounded by explicit fuel.  The recursive branch is dead code in
the source — `InitializeCapture` always returns `true` — so the fuel value is
irrelevant; the reconnect backoff sleep is dropped. -/
def AttemptReconnectAux : Nat → CameraManagerState → CameraManagerState
  | 0, m => m
  | fuel + 1, m =>
    if m.config.max_reconnect_attempts ≤ m.reconnect_attempts then
      SetState (SetError m "Maximum reconnect attempts exceeded") CameraState.ERROR
    else
      let m1 := SetState m CameraState.RECONNECTING
      let m2 := { m1 with
        reconnect_attempts := m1.reconnect_attempts + 1
        stats := { m1.stats with reconnect_count := m1.stats.reconnect_count + 1 } }
      match InitializeCapture m2 with
      | (m3, true) => { SetState m3 CameraState.CAPTURING with reconnect_attempts := 0 }
      | (m3, false) =>
        if ShouldAttemptReconnect m3 then AttemptReconnectAux fuel m3
        else SetState m3 CameraState.ERROR

/-- Entry point of the reconnect procedure. -/
def AttemptReconnect (m : CameraManagerState) : CameraManagerState :=
  AttemptReconnectAux (m.config.max_reconnect_attempts.toNat + 1) m

/-- `CameraManager::ValidateFrame` (`camera_manager.cpp`): non-empty data,
positive dimensions, and `data.size() >= (size_t)width * (size_t)height / 2`.
The casts are reached only with positive dimensions, where `Int.toNat` agrees
with `static_cast<size_t>`. -/
def ValidateFrame (frame : Frame) : Bool :=
  if frame.data.isEmpty then false
  else if frame.width ≤ 0 ∨ frame.height ≤ 0 then false
  else !decide (frame.data.length < frame.width.toNat * frame.height.toNat / 2)

/-- `CameraManager::UpdateStats` (`camera_manager.cpp`). -/
def UpdateStats (m : CameraManagerState) (now : Nat) (frame : Frame) : CameraManagerState :=
  { m with stats := { m.stats with
      frames_captured := m.stats.frames_captured + 1
      bytes_received := m.stats.bytes_received + frame.data.length
      last_frame_time := now } }

/-- `CameraManager::NotifyFrameAvailable` (`camera_manager.cpp`): invokes the
registered callback under the callback lock, swallowing its exceptions; the
invocation is recorded in `delivered`. -/
def NotifyFrameAvailable (m : CameraManagerState) (frame : Frame) : CameraManagerState :=
  { m with delivered := m.delivered ++ [frame] }

/-- `CameraManager::CaptureFrame` (`camera_manager.cpp`), parameterised by
`frame`, the value returned by the type-specific capture call
(`CaptureFileFrame` / `CaptureWebcamFrame` / `CaptureRtspFrame` /
`CaptureTestFrame`); in the `default` case the source leaves `frame` default
constructed and `success = false`, and the returned pair never reads `frame`
there.  Note the function returns `success`, not `success && ValidateFrame`. -/
def CaptureFrameWith (m : CameraManagerState) (now : Nat) (frame : Frame) :
    Bool × CameraManagerState :=
  let success : Bool :=
    match m.camera_type with
    | CameraType.FILE_VIDEO => !frame.data.isEmpty
    | CameraType.WEBCAM => !frame.data.isEmpty
    | CameraType.RTSP_STREAM => !frame.data.isEmpty
    | CameraType.TEST_PATTERN => true
    | _ => false
  if success && ValidateFrame frame then
    (success, NotifyFrameAvailable (UpdateStats m now frame) frame)
  else
    (success, m)

/-- One iteration of `CameraManager::CaptureLoop` (`camera_manager.cpp`),
parameterised like `CaptureFrameWith`; the framerate-control sleep is
dropped. -/
def CaptureLoopIter (m : CameraManagerState) (now : Nat) (frame : Frame) :
    CameraManagerState :=
  let r := CaptureFrameWith m now frame
  if r.1 = false then
    if r.2.config.auto_reconnect && ShouldAttemptReconnect r.2 then
      AttemptReconnect r.2
    else
      SetState (SetError r.2 "Capture failed and reconnect disabled") CameraState.ERROR
  else r.2

end CameraManager

/-- A `surveillance::vision::Detection` protobuf record.  The embedded
frame-processing operations move detections around but never read their
payload, so only identifying fields are carried. -/
structure Detection where
  id : String := ""
  dtype : String := ""
deriving DecidableEq, Repr

/-- `struct ProcessingResult` from `frame_processor.h` (with its constructor
defaults). -/
structure ProcessingResult where
  detections : List Detection := []
  processing_time_ms : Int := 0
  success : Bool := true
  error_message : String := ""
deriving DecidableEq, Repr

namespace FrameProcessorConstants

/-- `DEFAULT_MAX_DETECTIONS` from `frame_processor.h`. -/
def DEFAULT_MAX_DETECTIONS : Int := 10

/-- `MAX_FRAME_WIDTH` from `frame_processor.h`. -/
def MAX_FRAME_WIDTH : Int := 4096

/-- `MAX_FRAME_HEIGHT` from `frame_processor.h`. -/
def MAX_FRAME_HEIGHT : Int := 4096

/-- `MIN_FRAME_WIDTH` from `frame_processor.h`. -/
def MIN_FRAME_WIDTH : Int := 32

/-- `MIN_FRAME_HEIGHT` from `frame_processor.h`. -/
def MIN_FRAME_HEIGHT : Int := 32

/-- `SUPPORTED_FORMATS` from `frame_processor.h`. -/
def SUPPORTED_FORMATS : List String := ["bgr", "rgb", "gray", "jpeg", "png"]

end FrameProcessorConstants

namespace FrameUtils

/-- `FrameUtils::CalculateFrameSize` (`frame_processor.cpp`).  The arithmetic
is C++ `int` arithmetic returned as `size_t`; every call site reaching the
division passes dimensions in `[32, 4096]`, where the `int` product cannot
overflow and C++ and Lean division agree. -/
def CalculateFrameSize (width height : Int) (format : String) : Int :=
  if format = "bgr" ∨ format = "rgb" then width * height * 3
  else if format = "gray" then width * height
  else if format = "jpeg" ∨ format = "png" then width * height * 3 / 2
  else 0

/-- `FrameUtils::IsValidFormat` (`frame_processor.cpp`). -/
def IsValidFormat (format : String) : Bool :=
  FrameProcessorConstants.SUPPORTED_FORMATS.contains format

end FrameUtils

/-- The state of a `FrameProcessor` object (`frame_processor.h`): the
`initialized_` flag, the configuration, and the three aggregate counters.  The
detector registry itself is abstracted: each `ProcessFrame` call takes the
list of the registered detectors' outputs (in registration order) as a
parameter, which is the only way the registry is read there.  The `double`
field `motion_threshold_` is never read by the modelled operations and is
omitted. -/
structure FrameProcessorState where
  initialized : Bool := false
  min_detection_area : Int := 100
  max_detections_per_frame : Int := FrameProcessorConstants.DEFAULT_MAX_DETECTIONS
  total_frames_processed : Int := 0
  total_detections : Int := 0
  total_processing_time : Int := 0
deriving DecidableEq, Repr

namespace FrameProcessor

open FrameProcessorConstants

/-- `FrameProcessor::ValidateFrame` (`frame_processor.cpp`): non-empty data,
dimensions within `[32, 4096]`, non-empty format, and — only when the format's
expected size is positive — `data.size() < expected_size * 0.8` rejects.  The
`double` comparison with `0.8` is modelled exactly as `5 * size < 4 * expected`:
for every `expected ≤ 4096 * 4096 * 3`, `expected * 0.8` in IEEE double rounds
to a value that orders the integers below `2^53` identically. -/
def ValidateFrame (frame : Frame) : Bool :=
  if frame.data.isEmpty then false
  else if frame.width < MIN_FRAME_WIDTH ∨ MAX_FRAME_WIDTH < frame.width ∨
      frame.height < MIN_FRAME_HEIGHT ∨ MAX_FRAME_HEIGHT < frame.height then false
  else if frame.format = "" then false
  else
    let expected := FrameUtils.CalculateFrameSize frame.width frame.height frame.format
    if 0 < expected ∧ (frame.data.length : Int) * 5 < expected * 4 then false
    else true

/-- `FrameProcessor::CreateErrorResult` (`frame_processor.cpp`). -/
def CreateErrorResult (error : String) : ProcessingResult :=
  { detections := [], processing_time_ms := 0, success := false, error_message := error }

/-- `FrameProcessor::UpdateStatistics` (`frame_processor.cpp`). -/
def UpdateStatistics (fp : FrameProcessorState) (processing_time : Int)
    (detections_count : Int) : FrameProcessorState :=
  { fp with
    total_frames_processed := fp.total_frames_processed + 1
    total_detections := fp.total_detections + detections_count
    total_processing_time := fp.total_processing_time + processing_time }

/-- C++ `static_cast<size_t>(i)` on a signed value: reduction modulo `2^64`. -/
def castSizeT (i : Int) : Nat := (i % 18446744073709551616).toNat

/-- The inner loop of `FrameProcessor::ProcessFrame` over one detector's
output: `if (result.detections.size() < static_cast<size_t>(max)) push_back
else break`. -/
def addDetections (max : Int) : List Detection → List Detection → List Detection
  | acc, [] => acc
  | acc, d :: ds =>
    if acc.length < castSizeT max then addDetections max (acc ++ [d]) ds else acc

/-- The detector loop of `FrameProcessor::ProcessFrame`: every registered
detector in registration order, each output folded through the capped inner
loop. -/
def runDetectors (max : Int) (outs : List (List Detection)) : List Detection :=
  outs.foldl (addDetections max) []

/-- `FrameProcessor::ProcessFrame(const Frame&)` (`frame_processor.cpp`).
`outs` is the list of the registered detectors' outputs for `frame`, in
registration order; `elapsed_ms` is the measured wall-clock duration.  The
detector-exception catch is not modelled (detector outputs are values
here). -/
def ProcessFrame (fp : FrameProcessorState) (frame : Frame)
    (outs : List (List Detection)) (elapsed_ms : Int) :
    ProcessingResult × FrameProcessorState :=
  if fp.initialized = false then
    (CreateErrorResult "FrameProcessor not initialized", fp)
  else if ValidateFrame frame = false then
    (CreateErrorResult "Invalid frame data", fp)
  else
    let dets := runDetectors fp.max_detections_per_frame outs
    ({ detections := dets, processing_time_ms := elapsed_ms,
       success := true, error_message := "" },
     UpdateStatistics fp elapsed_ms (dets.length : Int))

end FrameProcessor

/-- A gRPC `Status` as the handlers build it: `Status::OK` or
`Status(INVALID_ARGUMENT, msg)`. -/
inductive RpcStatus where
  | ok
  | invalid_argument (msg : String)
deriving DecidableEq, Repr

/-- A `StreamResponse` protobuf (proto3 string fields default to `""`). -/
structure StreamResponse where
  status : String := ""
  message : String := ""
  stream_id : String := ""
deriving DecidableEq, Repr

/-- A `StopResponse` protobuf. -/
structure StopResponse where
  status : String := ""
  message : String := ""
deriving DecidableEq, Repr

/-- A `StatusResponse` protobuf.  `has_stats` models whether the `stats`
submessage was set (`mutable_stats()` called); the `double` field
`fps_actual` is not carried (floating point, and no modelled claim reads
it). -/
structure StatusResponse where
  camera_id : String := ""
  status : String := ""
  message : String := ""
  has_stats : Bool := false
  frames_processed : Int := 0
  detections_count : Int := 0
  uptime_seconds : Int := 0
  last_frame_timestamp : Int := 0
deriving DecidableEq, Repr

/-- The registry's view of a `StreamState` (`vision_service.h`): identity,
status string, start time and the two per-session counters.  The owned
`CameraManager` and `FrameProcessor` objects are constructed and driven inside
`StartStream` (modelled there) but not read back by any embedded registry
operation, so they are not stored in the entry. -/
structure StreamEntry where
  camera_id : String
  camera_url : String
  status : String := "starting"
  start_time : Nat := 0
  frames_processed : Int := 0
  detections_count : Int := 0
deriving DecidableEq, Repr

/-- The shared state of `VisionServiceImpl` (`vision_service.h`): the
`camera_id → StreamState` registry (an association list with unique keys — the
duplicate check guards every insert) and the started-streams counter.  Every
handler runs under the single registry lock, so handlers are modelled as
atomic state transformers. -/
structure ServiceState where
  active_streams : List (String × StreamEntry) := []
  total_streams_started : Int := 0
deriving DecidableEq, Repr

namespace VisionServiceConstants

/-- `MAX_CONCURRENT_STREAMS` from `vision_service.h`. -/
def MAX_CONCURRENT_STREAMS : Nat := 10

end VisionServiceConstants

namespace VisionServiceImpl

open VisionServiceConstants

/-- The fresh service built by the `VisionServiceImpl` constructor. -/
def initial : ServiceState := {}

/-- `VisionServiceImpl::ValidateStreamRequest` (`vision_service.cpp`). -/
def ValidateStreamRequest (ex : String → Bool) (camera_id camera_url : String) : RpcStatus :=
  if camera_id = "" then RpcStatus.invalid_argument "Camera ID cannot be empty"
  else if camera_url = "" then RpcStatus.invalid_argument "Camera URL cannot be empty"
  else if !CameraManager.IsValidCameraUrl ex camera_url then
    RpcStatus.invalid_argument "Invalid camera URL format"
  else RpcStatus.ok

/-- `VisionServiceImpl::ValidateStopRequest` (`vision_service.cpp`). -/
def ValidateStopRequest (camera_id : String) : RpcStatus :=
  if camera_id = "" then RpcStatus.invalid_argument "Camera ID cannot be empty"
  else RpcStatus.ok

/-- `VisionServiceImpl::ValidateStatusRequest` (`vision_service.cpp`).  Note:
this validator is defined in the source but `GetStreamStatus` never calls
it. -/
def ValidateStatusRequest (camera_id : String) : RpcStatus :=
  if camera_id = "" then RpcStatus.invalid_argument "Camera ID cannot be empty"
  else RpcStatus.ok

/-- What a handler leaves behind: the gRPC status, the response it filled in,
and the mutated service state. -/
structure StartOutcome where
  rpc : RpcStatus
  resp : StreamResponse
  svc : ServiceState
deriving DecidableEq, Repr

/-- `VisionServiceImpl::GenerateStreamId` (`vision_service.cpp`);
`epoch_ms` is the wall-clock epoch read. -/
def GenerateStreamId (camera_id : String) (epoch_ms : Nat) : String :=
  camera_id ++ "_" ++ toString epoch_ms

/-- `VisionServiceImpl::StartStream` (`vision_service.cpp`).  `ex` is the
filesystem oracle, `backend_ok`/`spawn_ok` parameterise the embedded
`CameraManager::Initialize()` (default config) and `StartCapture()` calls,
`now` is the steady clock and `epoch_ms` the system clock.  An admitted entry
is inserted with `status = "active"` (the `StreamState` constructor's
"starting" is overwritten before the insert becomes visible). -/
def StartStream (ex : String → Bool) (backend_ok spawn_ok : Bool) (now epoch_ms : Nat)
    (svc : ServiceState) (camera_id camera_url : String) : StartOutcome :=
  if ValidateStreamRequest ex camera_id camera_url ≠ RpcStatus.ok then
    { rpc := ValidateStreamRequest ex camera_id camera_url, resp := {}, svc := svc }
  else if (svc.active_streams.lookup camera_id).isSome then
    { rpc := RpcStatus.ok
      resp := { status := "error", message := "Stream already active for camera " ++ camera_id }
      svc := svc }
  else if MAX_CONCURRENT_STREAMS ≤ svc.active_streams.length then
    { rpc := RpcStatus.ok
      resp := { status := "error", message := "Maximum number of concurrent streams reached" }
      svc := svc }
  else
    let mgr := CameraManager.mk ex camera_url
    let ini := CameraManager.Initialize backend_ok now mgr {}
    if ini.1 = false then
      { rpc := RpcStatus.ok
        resp := { status := "error", message := "Failed to initialize camera for " ++ camera_id }
        svc := svc }
    else
      let started := CameraManager.StartCapture spawn_ok ini.2
      if started.1 = false then
        { rpc := RpcStatus.ok
          resp := { status := "error", message := "Failed to start capture for " ++ camera_id }
          svc := svc }
      else
        { rpc := RpcStatus.ok
          resp := { status := "success", message := "Stream started successfully"
                    stream_id := GenerateStreamId camera_id epoch_ms }
          svc := { active_streams :=
                     (camera_id,
                      { camera_id := camera_id, camera_url := camera_url
                        status := "active", start_time := now }) :: svc.active_streams
                   total_streams_started := svc.total_streams_started + 1 } }

/-- What `StopStream` leaves behind. -/
structure StopOutcome where
  rpc : RpcStatus
  resp : StopResponse
  svc : ServiceState
deriving DecidableEq, Repr

/-- `VisionServiceImpl::StopStream` (`vision_service.cpp`).  The embedded
`CameraManager::StopCapture()` call acts on the session's own engine, which
the registry entry does not carry; erasing the entry is the registry-visible
effect. -/
def StopStream (svc : ServiceState) (camera_id : String) : StopOutcome :=
  if ValidateStopRequest camera_id ≠ RpcStatus.ok then
    { rpc := ValidateStopRequest camera_id, resp := {}, svc := svc }
  else if (svc.active_streams.lookup camera_id).isSome = false then
    { rpc := RpcStatus.ok
      resp := { status := "error", message := "No active stream found for camera " ++ camera_id }
      svc := svc }
  else
    { rpc := RpcStatus.ok
      resp := { status := "success", message := "Stream stopped successfully" }
      svc := { svc with
               active_streams := svc.active_streams.filter (fun p => p.1 ≠ camera_id) } }

/-- `VisionServiceImpl::GetStreamStatus` (`vision_service.cpp`).  The handler
reads `request->camera_id()` and goes straight to the registry lookup —
`ValidateStatusRequest` is never invoked. -/
def GetStreamStatus (svc : ServiceState) (camera_id : String) (now : Nat) :
    RpcStatus × StatusResponse :=
  match svc.active_streams.lookup camera_id with
  | none =>
    (RpcStatus.ok, { camera_id := camera_id, status := "stopped", message := "No active stream" })
  | some st =>
    (RpcStatus.ok,
     { camera_id := camera_id, status := st.status, message := "Stream active"
       has_stats := true
       frames_processed := st.frames_processed
       detections_count := st.detections_count
       uptime_seconds := (now : Int) - (st.start_time : Int)
       last_frame_timestamp := (now : Int) })

/-- The service states reachable from a fresh `VisionServiceImpl` through the
registry-mutating handlers (`GetStreamStatus`, `GetHealth` and
`ProcessFrames` do not touch the registry). -/
inductive Reachable : ServiceState → Prop where
  | init : Reachable initial
  | start (ex : String → Bool) (backend_ok spawn_ok : Bool) (now epoch_ms : Nat)
      (svc : ServiceState) (camera_id camera_url : String) :
      Reachable svc →
      Reachable (StartStream ex backend_ok spawn_ok now epoch_ms svc camera_id camera_url).svc
  | stop (svc : ServiceState) (camera_id : String) :
      Reachable svc → Reachable (StopStream svc camera_id).svc

end VisionServiceImpl

/-- A freshly constructed test-pattern engine taken through a successful
`Initialize()` (default config): state `READY`. -/
def mgrReady : CameraManagerState :=
  (CameraManager.Initialize true 0 (CameraManager.mk (fun _ => false) "test://pattern") {}).2

/-- `mgrReady` after a successful `StartCapture()`: one worker thread, state
`CAPTURING`. -/
def mgrCapturing : CameraManagerState := (CameraManager.StartCapture true mgrReady).2

/-- C1: a second `StartCapture()` on an engine that is already capturing.  The
call spawns no additional worker and leaves the state `CAPTURING`, but it
returns failure, not success: the `state_ != READY` guard fires before the
`is_capturing_` idempotence branch (which is unreachable while capturing,
since capturing implies `state_ == CAPTURING`), and the call records the error
"Camera not ready for capture". -/
theorem StartCapture_duplicate_returns_false :
    mgrCapturing.state = CameraState.CAPTURING ∧
    mgrCapturing.is_capturing = true ∧
    (CameraManager.StartCapture true mgrCapturing).1 = false ∧
    (CameraManager.StartCapture true mgrCapturing).2.state = CameraState.CAPTURING ∧
    (CameraManager.StartCapture true mgrCapturing).2.is_capturing = true ∧
    (CameraManager.StartCapture true mgrCapturing).2.threads_spawned =
      mgrCapturing.threads_spawned ∧
    (CameraManager.StartCapture true mgrCapturing).2.last_error =
      "Camera not ready for capture" := by
  decide

/-- C6: `AttemptReconnect` with the attempt counter at or above the cap sets
`ERROR` and the last error "Maximum reconnect attempts exceeded" without
touching either counter; below the cap it passes through `RECONNECTING`,
increments `reconnect_attempts` and `stats.reconnect_count` before the
reinitialization, and — `InitializeCapture` succeeding — ends in `CAPTURING`
with `reconnect_attempts` reset to 0. -/
theorem AttemptReconnect_cap_and_success (m : CameraManagerState) :
    (m.config.max_reconnect_attempts ≤ m.reconnect_attempts →
      (CameraManager.AttemptReconnect m).state = CameraState.ERROR ∧
      (CameraManager.AttemptReconnect m).last_error = "Maximum reconnect attempts exceeded" ∧
      (CameraManager.AttemptReconnect m).reconnect_attempts = m.reconnect_attempts ∧
      (CameraManager.AttemptReconnect m).stats.reconnect_count = m.stats.reconnect_count) ∧
    (m.reconnect_attempts < m.config.max_reconnect_attempts →
      (CameraManager.AttemptReconnect m).state = CameraState.CAPTURING ∧
      (CameraManager.AttemptReconnect m).reconnect_attempts = 0 ∧
      (CameraManager.AttemptReconnect m).stats.reconnect_count = m.stats.reconnect_count + 1 ∧
      (CameraManager.AttemptReconnect m).trace =
        m.trace ++ [CameraState.RECONNECTING, CameraState.CAPTURING]) := by
  constructor
  · intro h
    simp [CameraManager.AttemptReconnect, CameraManager.AttemptReconnectAux, if_pos h,
      CameraManager.SetState, CameraManager.SetError]
  · intro h
    simp [CameraManager.AttemptReconnect, CameraManager.AttemptReconnectAux,
      if_neg (not_le.mpr h), CameraManager.SetState, CameraManager.SetError,
      CameraManager.InitializeCapture]

/-- Witness for C6 at concrete inputs: an engine with `reconnect_attempts = 3`
at the default cap 3 fails terminally; one with `reconnect_attempts = 0`
reconnects successfully. -/
theorem AttemptReconnect_cap_and_success_witness :
    (CameraManager.AttemptReconnect
      { CameraManager.mk (fun _ => false) "clip.mp4" with reconnect_attempts := 3 }).state =
        CameraState.ERROR ∧
    (CameraManager.AttemptReconnect
      { CameraManager.mk (fun _ => false) "clip.mp4" with reconnect_attempts := 3 }).last_error =
        "Maximum reconnect attempts exceeded" ∧
    (CameraManager.AttemptReconnect (CameraManager.mk (fun _ => false) "clip.mp4")).state =
        CameraState.CAPTURING ∧
    (CameraManager.AttemptReconnect (CameraManager.mk (fun _ => false) "clip.mp4")).stats.reconnect_count = 1 :=
  ⟨((AttemptReconnect_cap_and_success _).1 (by decide)).1,
   ((AttemptReconnect_cap_and_success _).1 (by decide)).2.1,
   ((AttemptReconnect_cap_and_success _).2 (by decide)).1,
   ((AttemptReconnect_cap_and_success (CameraManager.mk (fun _ => false) "clip.mp4")).2
      (by decide)).2.2.1⟩

/-- C7: `Initialize(config)` rejects every config with `width ≤ 0`,
`height ≤ 0`, `fps ≤ 0` or a `width·height` product overflowing a signed
32-bit `int`, returning failure with last error "Invalid configuration
parameters" and state `ERROR`; a valid config applied to an `UNINITIALIZED`
engine whose backend initialization succeeds yields success through
`INITIALIZING` to `READY` and records `start_time`. -/
theorem Initialize_validates_config (backend_ok : Bool) (now : Nat)
    (m : CameraManagerState) (config : CameraConfig) :
    ((config.width ≤ 0 ∨ config.height ≤ 0 ∨ config.fps ≤ 0 ∨
        CameraManager.INT_MAX < config.width * config.height) →
      (CameraManager.Initialize backend_ok now m config).1 = false ∧
      (CameraManager.Initialize backend_ok now m config).2.state = CameraState.ERROR ∧
      (CameraManager.Initialize backend_ok now m config).2.last_error =
        "Invalid configuration parameters") ∧
    (0 < config.width → 0 < config.height → 0 < config.fps →
      config.width * config.height ≤ CameraManager.INT_MAX →
      m.state = CameraState.UNINITIALIZED →
      CameraManager.InitializeBackend backend_ok m.camera_type = true →
      (CameraManager.Initialize backend_ok now m config).1 = true ∧
      (CameraManager.Initialize backend_ok now m config).2.state = CameraState.READY ∧
      (CameraManager.Initialize backend_ok now m config).2.trace =
        m.trace ++ [CameraState.INITIALIZING, CameraState.READY] ∧
      (CameraManager.Initialize backend_ok now m config).2.stats.start_time = now) := by
  constructor
  · intro h
    have hcond : config.width ≤ 0 ∨ config.height ≤ 0 ∨ config.fps ≤ 0 ∨
        CameraManager.INT_MAX / config.height < config.width := by
      rcases h with h | h | h | h
      · exact Or.inl h
      · exact Or.inr (Or.inl h)
      · exact Or.inr (Or.inr (Or.inl h))
      · rcases le_or_lt config.width 0 with hw | hw
        · exact Or.inl hw
        · rcases le_or_lt config.height 0 with hh | hh
          · exact Or.inr (Or.inl hh)
          · exact Or.inr (Or.inr (Or.inr ((Int.ediv_lt_iff_lt_mul hh).mpr h)))
    simp [CameraManager.Initialize, if_pos hcond, CameraManager.SetState,
      CameraManager.SetError]
  · intro hw hh hf hprod hstate hbackend
    have hcond : ¬(config.width ≤ 0 ∨ config.height ≤ 0 ∨ config.fps ≤ 0 ∨
        CameraManager.INT_MAX / config.height < config.width) := by
      push_neg
      refine ⟨hw, hh, hf, ?_⟩
      exact not_lt.mp (fun hdiv => absurd ((Int.ediv_lt_iff_lt_mul hh).mp hdiv) (not_lt.mpr hprod))
    simp [CameraManager.Initialize, if_neg hcond, hstate, hbackend,
      CameraManager.SetState, CameraManager.SetError]

/-- Witness for C7 at concrete inputs: `width = 0` is rejected with state
`ERROR`; `width = 65536, height = 65536` (product `2^32`) is rejected; the
default config on a fresh test-pattern engine initializes to `READY` with
`start_time` recorded. -/
theorem Initialize_validates_config_witness :
    ((CameraManager.Initialize true 0 (CameraManager.mk (fun _ => false) "test://pattern")
        { width := 0 }).2.state = CameraState.ERROR) ∧
    ((CameraManager.Initialize true 0 (CameraManager.mk (fun _ => false) "test://pattern")
        { width := 65536, height := 65536 }).1 = false) ∧
    ((CameraManager.Initialize true 5 (CameraManager.mk (fun _ => false) "test://pattern")
        {}).1 = true) ∧
    ((CameraManager.Initialize true 5 (CameraManager.mk (fun _ => false) "test://pattern")
        {}).2.state = CameraState.READY) ∧
    ((CameraManager.Initialize true 5 (CameraManager.mk (fun _ => false) "test://pattern")
        {}).2.stats.start_time = 5) :=
  ⟨((Initialize_validates_config true 0 _ _).1 (Or.inl (by decide))).2.1,
   ((Initialize_validates_config true 0 _ _).1
      (Or.inr (Or.inr (Or.inr (by decide))))).1,
   ((Initialize_validates_config true 5 _ _).2 (by decide) (by decide) (by decide)
      (by decide) (by decide) (by decide)).1,
   ((Initialize_validates_config true 5 _ _).2 (by decide) (by decide) (by decide)
      (by decide) (by decide) (by decide)).2.1,
   ((Initialize_validates_config true 5 _ _).2 (by decide) (by decide) (by decide)
      (by decide) (by decide) (by decide)).2.2.2⟩

/-- A file-video engine in mid-capture (default config: `auto_reconnect`,
cap 3, no attempts used). -/
def fileMgrCapturing : CameraManagerState :=
  { CameraManager.mk (fun _ => false) "clip.mp4" with
    state := CameraState.CAPTURING, is_capturing := true }

/-- A non-empty frame that fails `CameraManager::ValidateFrame`
(`1 < 100 * 100 / 2`). -/
def undersizedFrame : Frame := { data := [0], width := 100, height := 100, format := "bgr" }

/-- Counterexample to C4 as stated: at `fileMgrCapturing`, the type-specific
capture yielding the non-empty invalid `undersizedFrame` is NOT treated as a
capture failure — `CaptureFrame` returns `true` and the loop iteration leaves
the engine completely unchanged — whereas the failure path taken for an empty
frame at the same state runs the reconnect procedure (bumping
`stats.reconnect_count` to 1). -/
theorem CaptureLoop_invalid_frame_cex :
    CameraManager.ValidateFrame undersizedFrame = false ∧
    undersizedFrame.data ≠ [] ∧
    (CameraManager.CaptureFrameWith fileMgrCapturing 7 undersizedFrame).1 = true ∧
    CameraManager.CaptureLoopIter fileMgrCapturing 7 undersizedFrame = fileMgrCapturing ∧
    (CameraManager.CaptureLoopIter fileMgrCapturing 7 { data := [] }).stats.reconnect_count = 1 ∧
    CameraManager.CaptureLoopIter fileMgrCapturing 7 undersizedFrame ≠
      CameraManager.CaptureLoopIter fileMgrCapturing 7 { data := [] } := by
  decide

/-- C4 (amended): in the capture loop, a non-empty frame from a
file/webcam/RTSP capture that fails frame validation skips the stats update
and the frame callback, but the iteration is treated as a success:
`CaptureFrame` returns `true`, so the loop takes neither the reconnect nor the
error path and the engine state (reconnect counter included) is left entirely
unchanged. -/
theorem CaptureLoop_invalid_frame_unchanged (m : CameraManagerState) (now : Nat)
    (frame : Frame) :
    (m.camera_type = CameraType.FILE_VIDEO ∨ m.camera_type = CameraType.WEBCAM ∨
      m.camera_type = CameraType.RTSP_STREAM) →
    frame.data ≠ [] →
    CameraManager.ValidateFrame frame = false →
    CameraManager.CaptureFrameWith m now frame = (true, m) ∧
    CameraManager.CaptureLoopIter m now frame = m := by
  intro htype hdata hinvalid
  have hsuccess : CameraManager.CaptureFrameWith m now frame = (true, m) := by
    rcases htype with h | h | h <;>
      simp [CameraManager.CaptureFrameWith, h, hinvalid, List.isEmpty_iff, hdata]
  exact ⟨hsuccess, by simp [CameraManager.CaptureLoopIter, hsuccess]⟩

/-- Witness for C4 (amended) at the concrete capturing file engine and the
concrete undersized frame. -/
theorem CaptureLoop_invalid_frame_unchanged_witness :
    CameraManager.CaptureFrameWith fileMgrCapturing 7 undersizedFrame =
      (true, fileMgrCapturing) ∧
    CameraManager.CaptureLoopIter fileMgrCapturing 7 undersizedFrame = fileMgrCapturing :=
  CaptureLoop_invalid_frame_unchanged fileMgrCapturing 7 undersizedFrame
    (Or.inl (by decide)) (by decide) (by decide)

/-- C5: `GetStreamStatus` never calls `ValidateStatusRequest`, so a request
with an empty `camera_id` is not rejected as invalid-argument: like any id
absent from the registry it gets an OK RPC with in-body `status = "stopped"`
and no stats submessage.  The unused validator itself would have rejected
it. -/
theorem GetStreamStatus_empty_id_not_rejected :
    VisionServiceImpl.ValidateStatusRequest "" =
      RpcStatus.invalid_argument "Camera ID cannot be empty" ∧
    (VisionServiceImpl.GetStreamStatus VisionServiceImpl.initial "" 0).1 = RpcStatus.ok ∧
    (VisionServiceImpl.GetStreamStatus VisionServiceImpl.initial "" 0).2.status = "stopped" ∧
    (VisionServiceImpl.GetStreamStatus VisionServiceImpl.initial "" 0).2.has_stats = false ∧
    (VisionServiceImpl.GetStreamStatus VisionServiceImpl.initial "absent_cam" 5).1 =
      RpcStatus.ok ∧
    (VisionServiceImpl.GetStreamStatus VisionServiceImpl.initial "absent_cam" 5).2.status =
      "stopped" ∧
    (VisionServiceImpl.GetStreamStatus VisionServiceImpl.initial "absent_cam" 5).2.has_stats =
      false := by
  decide

/-- `StartStream` never grows the registry past the admission cap: the
duplicate/cap checks and the insert sit in one critical section. -/
theorem StartStream_preserves_cap (ex : String → Bool) (backend_ok spawn_ok : Bool)
    (now epoch_ms : Nat) (svc : ServiceState) (camera_id camera_url : String)
    (h : svc.active_streams.length ≤ VisionServiceConstants.MAX_CONCURRENT_STREAMS) :
    (VisionServiceImpl.StartStream ex backend_ok spawn_ok now epoch_ms svc
        camera_id camera_url).svc.active_streams.length ≤
      VisionServiceConstants.MAX_CONCURRENT_STREAMS := by
  unfold VisionServiceImpl.StartStream
  split
  · exact h
  split
  · exact h
  split
  · exact h
  dsimp only
  split
  · exact h
  split
  · exact h
  rename_i hcap _ _
  simp only [List.length_cons]
  omega

/-- `StopStream` never grows the registry. -/
theorem StopStream_shrinks (svc : ServiceState) (camera_id : String) :
    (VisionServiceImpl.StopStream svc camera_id).svc.active_streams.length ≤
      svc.active_streams.length := by
  unfold VisionServiceImpl.StopStream
  split
  · exact le_refl _
  split
  · exact le_refl _
  exact List.length_filter_le _ _

/-- C2: in every reachable service state the number of active streams is at
most `MAX_CONCURRENT_STREAMS = 10` (the admission check and the insert are one
atomic step of the transition system, as they are one critical section under
the registry lock), and a `StartStream` that passes request validation and the
duplicate check while the count is at the cap returns an OK RPC whose body
carries `status = "error"` and leaves the registry unchanged. -/
theorem active_streams_bounded_and_cap_rejects :
    (∀ svc : ServiceState, VisionServiceImpl.Reachable svc →
      svc.active_streams.length ≤ VisionServiceConstants.MAX_CONCURRENT_STREAMS) ∧
    (∀ (ex : String → Bool) (backend_ok spawn_ok : Bool) (now epoch_ms : Nat)
        (svc : ServiceState) (camera_id camera_url : String),
      VisionServiceImpl.ValidateStreamRequest ex camera_id camera_url = RpcStatus.ok →
      (svc.active_streams.lookup camera_id).isSome = false →
      VisionServiceConstants.MAX_CONCURRENT_STREAMS ≤ svc.active_streams.length →
      (VisionServiceImpl.StartStream ex backend_ok spawn_ok now epoch_ms svc
          camera_id camera_url).rpc = RpcStatus.ok ∧
      (VisionServiceImpl.StartStream ex backend_ok spawn_ok now epoch_ms svc
          camera_id camera_url).resp.status = "error" ∧
      (VisionServiceImpl.StartStream ex backend_ok spawn_ok now epoch_ms svc
          camera_id camera_url).svc = svc) := by
  constructor
  · intro svc hreach
    induction hreach with
    | init => decide
    | start ex backend_ok spawn_ok now epoch_ms svc camera_id camera_url _ ih =>
      exact StartStream_preserves_cap ex backend_ok spawn_ok now epoch_ms svc
        camera_id camera_url ih
    | stop svc camera_id _ ih => exact le_trans (StopStream_shrinks svc camera_id) ih
  · intro ex backend_ok spawn_ok now epoch_ms svc camera_id camera_url hvalid hdup hcap
    unfold VisionServiceImpl.StartStream
    rw [if_neg (by simp [hvalid]), if_neg (by simp [hdup]), if_pos hcap]
    exact ⟨rfl, rfl, rfl⟩

/-- One admitted `StartStream` of a distinctly named test-pattern session. -/
def svcStartTest (svc : ServiceState) (i : Nat) : ServiceState :=
  (VisionServiceImpl.StartStream (fun _ => false) true true 0 0 svc
    ("cam" ++ toString i) "test://pattern").svc

/-- Folding admitted starts stays within the reachable states. -/
theorem reachable_foldl_svcStartTest (l : List Nat) (svc : ServiceState)
    (h : VisionServiceImpl.Reachable svc) :
    VisionServiceImpl.Reachable (l.foldl svcStartTest svc) := by
  induction l generalizing svc with
  | nil => exact h
  | cons i l ih =>
    exact ih _ (VisionServiceImpl.Reachable.start (fun _ => false) true true 0 0 svc
      ("cam" ++ toString i) "test://pattern" h)

/-- A service that has admitted ten distinct test-pattern streams. -/
def svcTen : ServiceState := (List.range 10).foldl svcStartTest VisionServiceImpl.initial

/-- Witness for C2: `svcTen` is reachable and holds exactly the cap of 10
streams; an eleventh `StartStream` is rejected in-body with `status = "error"`
and changes nothing. -/
theorem active_streams_bounded_and_cap_rejects_witness :
    svcTen.active_streams.length ≤ VisionServiceConstants.MAX_CONCURRENT_STREAMS ∧
    (VisionServiceImpl.StartStream (fun _ => false) true true 0 0 svcTen
        "cam10" "test://pattern").rpc = RpcStatus.ok ∧
    (VisionServiceImpl.StartStream (fun _ => false) true true 0 0 svcTen
        "cam10" "test://pattern").resp.status = "error" ∧
    (VisionServiceImpl.StartStream (fun _ => false) true true 0 0 svcTen
        "cam10" "test://pattern").svc = svcTen :=
  ⟨active_streams_bounded_and_cap_rejects.1 svcTen
      (reachable_foldl_svcStartTest (List.range 10) VisionServiceImpl.initial
        VisionServiceImpl.Reachable.init),
   (active_streams_bounded_and_cap_rejects.2 (fun _ => false) true true 0 0 svcTen
      "cam10" "test://pattern" (by decide) (by decide) (by decide)).1,
   (active_streams_bounded_and_cap_rejects.2 (fun _ => false) true true 0 0 svcTen
      "cam10" "test://pattern" (by decide) (by decide) (by decide)).2.1,
   (active_streams_bounded_and_cap_rejects.2 (fun _ => false) true true 0 0 svcTen
      "cam10" "test://pattern" (by decide) (by decide) (by decide)).2.2⟩

/-- The capped inner loop appends exactly up to the remaining budget. -/
theorem addDetections_eq_append_take (max : Int) (ds : List Detection) :
    ∀ acc : List Detection, acc.length ≤ FrameProcessor.castSizeT max →
    FrameProcessor.addDetections max acc ds =
      acc ++ ds.take (FrameProcessor.castSizeT max - acc.length) := by
  induction ds with
  | nil => intro acc _; simp [FrameProcessor.addDetections]
  | cons d ds ih =>
    intro acc hacc
    by_cases hlt : acc.length < FrameProcessor.castSizeT max
    · rw [FrameProcessor.addDetections, if_pos hlt,
        ih (acc ++ [d]) (by simp; omega)]
      have hsplit : FrameProcessor.castSizeT max - acc.length =
          (FrameProcessor.castSizeT max - (acc ++ [d]).length) + 1 := by
        simp; omega
      rw [hsplit, List.take_succ_cons]
      simp
    · rw [FrameProcessor.addDetections, if_neg hlt]
      have : FrameProcessor.castSizeT max - acc.length = 0 := by omega
      simp [this]

/-- The detector loop yields the first `castSizeT max` detections of the
concatenated outputs, in registration order. -/
theorem runDetectors_eq_take (max : Int) (outs : List (List Detection)) :
    FrameProcessor.runDetectors max outs =
      outs.flatten.take (FrameProcessor.castSizeT max) := by
  suffices h : ∀ (outs : List (List Detection)) (acc : List Detection),
      acc.length ≤ FrameProcessor.castSizeT max →
      outs.foldl (FrameProcessor.addDetections max) acc =
        acc ++ outs.flatten.take (FrameProcessor.castSizeT max - acc.length) by
    simpa [FrameProcessor.runDetectors] using h outs [] (by simp)
  intro outs
  induction outs with
  | nil => intro acc _; simp
  | cons o outs ih =>
    intro acc hacc
    rw [List.foldl_cons, addDetections_eq_append_take max o acc hacc,
      ih _ (by simp [List.length_take]; omega)]
    rw [List.append_assoc, List.flatten_cons, List.take_append_eq_append_take]
    have : FrameProcessor.castSizeT max - (acc ++ o.take
        (FrameProcessor.castSizeT max - acc.length)).length =
        FrameProcessor.castSizeT max - acc.length - o.length := by
      simp [List.length_take]; omega
    rw [this]

/-- C8: a successful `ProcessFrame` returns exactly the first
`max_detections_per_frame` detections of the registered detectors' outputs
concatenated in registration order (so appending stops at the cap), and for
any in-range cap the result's length is bounded by it. -/
theorem ProcessFrame_caps_detections (fp : FrameProcessorState) (frame : Frame)
    (outs : List (List Detection)) (elapsed_ms : Int) :
    ((FrameProcessor.ProcessFrame fp frame outs elapsed_ms).1.success = true →
      (FrameProcessor.ProcessFrame fp frame outs elapsed_ms).1.detections =
        outs.flatten.take (FrameProcessor.castSizeT fp.max_detections_per_frame)) ∧
    (0 ≤ fp.max_detections_per_frame →
      fp.max_detections_per_frame < 18446744073709551616 →
      ((FrameProcessor.ProcessFrame fp frame outs elapsed_ms).1.detections.length : Int) ≤
        fp.max_detections_per_frame) := by
  have hcast : 0 ≤ fp.max_detections_per_frame →
      fp.max_detections_per_frame < 18446744073709551616 →
      (FrameProcessor.castSizeT fp.max_detections_per_frame : Int) =
        fp.max_detections_per_frame := by
    intro h1 h2
    simp [FrameProcessor.castSizeT, Int.emod_eq_of_lt h1 h2, Int.toNat_of_nonneg h1]
  have hlen : (FrameProcessor.runDetectors fp.max_detections_per_frame outs).length ≤
      FrameProcessor.castSizeT fp.max_detections_per_frame := by
    rw [runDetectors_eq_take]
    simp [List.length_take]
  constructor
  · intro hsuccess
    unfold FrameProcessor.ProcessFrame at hsuccess ⊢
    by_cases hinit : fp.initialized = false
    · rw [if_pos hinit] at hsuccess
      simp [FrameProcessor.CreateErrorResult] at hsuccess
    by_cases hval : FrameProcessor.ValidateFrame frame = false
    · rw [if_neg hinit, if_pos hval] at hsuccess
      simp [FrameProcessor.CreateErrorResult] at hsuccess
    rw [if_neg hinit, if_neg hval]
    exact runDetectors_eq_take fp.max_detections_per_frame outs
  · intro h1 h2
    have := hcast h1 h2
    unfold FrameProcessor.ProcessFrame
    by_cases hinit : fp.initialized = false
    · rw [if_pos hinit]
      simp [FrameProcessor.CreateErrorResult]
      omega
    by_cases hval : FrameProcessor.ValidateFrame frame = false
    · rw [if_neg hinit, if_pos hval]
      simp [FrameProcessor.CreateErrorResult]
      omega
    rw [if_neg hinit, if_neg hval]
    dsimp only
    omega

/-- Witness for C8: an initialized processor with cap 2 over detector outputs
`[[a], [b, c]]` returns `[a, b]` — the concatenation truncated at the cap. -/
theorem ProcessFrame_caps_detections_witness :
    (FrameProcessor.ProcessFrame { initialized := true, max_detections_per_frame := 2 }
        { data := [0], width := 32, height := 32, format := "x" }
        [[{ id := "a" }], [{ id := "b" }, { id := "c" }]] 1).1.detections =
      ([[{ id := "a" }], [{ id := "b" }, { id := "c" }]] :
        List (List Detection)).flatten.take (FrameProcessor.castSizeT 2) ∧
    ((FrameProcessor.ProcessFrame { initialized := true, max_detections_per_frame := 2 }
        { data := [0], width := 32, height := 32, format := "x" }
        [[{ id := "a" }], [{ id := "b" }, { id := "c" }]] 1).1.detections.length : Int) ≤ 2 :=
  ⟨(ProcessFrame_caps_detections _ _ _ _).1 (by decide),
   (ProcessFrame_caps_detections
      { initialized := true, max_detections_per_frame := 2 }
      { data := [0], width := 32, height := 32, format := "x" }
      [[{ id := "a" }], [{ id := "b" }, { id := "c" }]] 1).2 (by decide) (by decide)⟩

/-- C9: a `ProcessFrame` call rejected because the processor is uninitialized
or the frame fails validation returns `success = false` with a non-empty
`error_message` and leaves the processor state — the aggregate counters
included — untouched; a call that passes both checks increments
`total_frames_processed`. -/
theorem ProcessFrame_rejection_leaves_counters (fp : FrameProcessorState) (frame : Frame)
    (outs : List (List Detection)) (elapsed_ms : Int) :
    (fp.initialized = false ∨ FrameProcessor.ValidateFrame frame = false →
      (FrameProcessor.ProcessFrame fp frame outs elapsed_ms).1.success = false ∧
      (FrameProcessor.ProcessFrame fp frame outs elapsed_ms).1.error_message ≠ "" ∧
      (FrameProcessor.ProcessFrame fp frame outs elapsed_ms).2 = fp) ∧
    (fp.initialized = true → FrameProcessor.ValidateFrame frame = true →
      (FrameProcessor.ProcessFrame fp frame outs elapsed_ms).2.total_frames_processed =
        fp.total_frames_processed + 1) := by
  constructor
  · intro h
    by_cases hinit : fp.initialized = false
    · simp [FrameProcessor.ProcessFrame, if_pos hinit, FrameProcessor.CreateErrorResult]
    · have hval : FrameProcessor.ValidateFrame frame = false := by
        rcases h with h | h
        · exact absurd h hinit
        · exact h
      simp [FrameProcessor.ProcessFrame, if_neg hinit, if_pos hval,
        FrameProcessor.CreateErrorResult]
  · intro hinit hval
    simp [FrameProcessor.ProcessFrame, hinit, hval, FrameProcessor.UpdateStatistics]

/-- Witness for C9: a fresh (uninitialized) processor rejects a frame and its
counters stay zero; an initialized processor accepting a frame counts it. -/
theorem ProcessFrame_rejection_leaves_counters_witness :
    (FrameProcessor.ProcessFrame {} { data := [0], width := 32, height := 32, format := "x" }
        [] 1).1.success = false ∧
    (FrameProcessor.ProcessFrame {} { data := [0], width := 32, height := 32, format := "x" }
        [] 1).1.error_message ≠ "" ∧
    (FrameProcessor.ProcessFrame {} { data := [0], width := 32, height := 32, format := "x" }
        [] 1).2 = ({} : FrameProcessorState) ∧
    (FrameProcessor.ProcessFrame { initialized := true }
        { data := [0], width := 32, height := 32, format := "x" } [] 1).2.total_frames_processed =
      ({ initialized := true } : FrameProcessorState).total_frames_processed + 1 :=
  ⟨((ProcessFrame_rejection_leaves_counters {}
      { data := [0], width := 32, height := 32, format := "x" } [] 1).1 (Or.inl rfl)).1,
   ((ProcessFrame_rejection_leaves_counters {}
      { data := [0], width := 32, height := 32, format := "x" } [] 1).1 (Or.inl rfl)).2.1,
   ((ProcessFrame_rejection_leaves_counters {}
      { data := [0], width := 32, height := 32, format := "x" } [] 1).1 (Or.inl rfl)).2.2,
   (ProcessFrame_rejection_leaves_counters { initialized := true }
      { data := [0], width := 32, height := 32, format := "x" } [] 1).2 rfl (by decide)⟩

/-- C10: for a non-empty format outside `{bgr, rgb, gray, jpeg, png}`,
`CalculateFrameSize` returns 0, so `ProcessFrame`'s validation skips the
data-length check entirely: any frame with non-empty data and both dimensions
in `[32, 4096]` passes validation however small its buffer. -/
theorem unknown_format_skips_size_check (frame : Frame) :
    frame.format ≠ "" →
    frame.format ∉ FrameProcessorConstants.SUPPORTED_FORMATS →
    FrameUtils.CalculateFrameSize frame.width frame.height frame.format = 0 ∧
    (frame.data ≠ [] →
      FrameProcessorConstants.MIN_FRAME_WIDTH ≤ frame.width →
      frame.width ≤ FrameProcessorConstants.MAX_FRAME_WIDTH →
      FrameProcessorConstants.MIN_FRAME_HEIGHT ≤ frame.height →
      frame.height ≤ FrameProcessorConstants.MAX_FRAME_HEIGHT →
      FrameProcessor.ValidateFrame frame = true) := by
  intro hne hmem
  simp [FrameProcessorConstants.SUPPORTED_FORMATS] at hmem
  obtain ⟨hbgr, hrgb, hgray, hjpeg, hpng⟩ := hmem
  have hsize : FrameUtils.CalculateFrameSize frame.width frame.height frame.format = 0 := by
    simp [FrameUtils.CalculateFrameSize, hbgr, hrgb, hgray, hjpeg, hpng]
  refine ⟨hsize, ?_⟩
  intro hdata hw1 hw2 hh1 hh2
  simp only [FrameProcessorConstants.MIN_FRAME_WIDTH,
    FrameProcessorConstants.MAX_FRAME_WIDTH, FrameProcessorConstants.MIN_FRAME_HEIGHT,
    FrameProcessorConstants.MAX_FRAME_HEIGHT] at hw1 hw2 hh1 hh2
  simp [FrameProcessor.ValidateFrame, List.isEmpty_iff, hdata, hne, hsize,
    FrameProcessorConstants.MIN_FRAME_WIDTH, FrameProcessorConstants.MAX_FRAME_WIDTH,
    FrameProcessorConstants.MIN_FRAME_HEIGHT, FrameProcessorConstants.MAX_FRAME_HEIGHT]
  omega

/-- Witness for C10: a 32×40 frame in format `"yuv"` with a one-byte buffer
passes `FrameProcessor::ValidateFrame`. -/
theorem unknown_format_skips_size_check_witness :
    FrameUtils.CalculateFrameSize 32 40 "yuv" = 0 ∧
    FrameProcessor.ValidateFrame { data := [7], width := 32, height := 40, format := "yuv" } =
      true :=
  ⟨(unknown_format_skips_size_check
      { data := [7], width := 32, height := 40, format := "yuv" } (by decide) (by decide)).1,
   (unknown_format_skips_size_check
      { data := [7], width := 32, height := 40, format := "yuv" } (by decide) (by decide)).2
     (by decide) (by decide) (by decide) (by decide) (by decide)⟩
